import Mathlib

/-!
Verification of the Posfra.js payment-button widget against its design
specification.  The repository ships the facade class (`src/Posfra.ts`),
the test suites and the build script; the `Button` class itself
(`src/Button.ts`) is referenced by all of them but its source is not in
the tree, so every `Button` operation below is modelled from the spec.
-/

namespace Posfra

/-- Modelled from the spec: the options record accepted by the `Button`
constructor (`src/Button.ts` is missing from the tree).  Amount is either
a Bitcoin quantity or a fiat quantity; redirect URL, reference and opaque
data are optional. -/
structure ButtonOptions where
  btc : Option String
  usd : Option String
  redirectURL : Option String
  ref : Option String
  data : Option String
deriving Repr, DecidableEq

/-- Modelled from the spec: the DOM attributes consumed when
auto-initializing a declarative button element: `embed-token`, `btc`,
`usd`, `redirect-url`, `ref`, `data`.  An absent attribute is `none`. -/
structure Element where
  embedToken : Option String
  btc : Option String
  usd : Option String
  redirectUrl : Option String
  ref : Option String
  data : Option String
deriving Repr, DecidableEq

/-- Modelled from the spec: the configuration produced by a successful
resolution, together with the warnings logged along the way. -/
structure ResolvedOptions where
  embedToken : String
  btc : Option String
  usd : Option String
  redirectURL : Option String
  ref : Option String
  data : Option String
  warnings : List String
deriving Repr, DecidableEq

/-- Decimal-digit test used by the numeric-value check. -/
def isDig (c : Char) : Bool := '0' ≤ c && c ≤ '9'

/-- Split a character list at every occurrence of a separator
character. -/
def splitChar (sep : Char) : List Char → List Char → List (List Char)
  | [], acc => [acc.reverse]
  | c :: cs, acc =>
    if c = sep then acc.reverse :: splitChar sep cs []
    else splitChar sep cs (c :: acc)

/-- Modelled from the spec: the amount attribute must parse as a numeric
value.  A string is numeric when, after an optional leading minus sign,
it is digits with at most one decimal point and at least one digit. -/
def isNumericString (s : String) : Bool :=
  let l := match s.data with
           | '-' :: rest => rest
           | l => l
  match splitChar '.' l [] with
  | [a] => !a.isEmpty && a.all isDig
  | [a, b] => !(a ++ b).isEmpty && a.all isDig && b.all isDig
  | _ => false

/-- Split a character list at the first occurrence of `://`, returning
the scheme part and the remainder. -/
def splitScheme : List Char → Option (List Char × List Char)
  | ':' :: '/' :: '/' :: rest => some ([], rest)
  | c :: cs =>
    match splitScheme cs with
    | some p => some (c :: p.1, p.2)
    | none => none
  | [] => none

/-- Modelled from the spec: a redirect URL must be a well-formed absolute
URL.  A string is accepted when it is `scheme://rest` with a nonempty
alphabetic scheme and a nonempty remainder; in particular the empty
string is rejected. -/
def isAbsoluteURL (s : String) : Bool :=
  match splitScheme s.data with
  | some p => !p.1.isEmpty && p.1.all Char.isAlpha && !p.2.isEmpty
  | none => false

/-- `true` when an amount attribute, if present, parses as a numeric
value. -/
def numericOpt : Option String → Bool
  | none => true
  | some s => isNumericString s

/-- Warning logged when a supplied redirect URL is not a well-formed
absolute URL. -/
def redirectWarning : String := "Invalid redirect-url attribute; ignoring it"

/-- Warning logged when the opaque data payload exceeds 500 characters. -/
def dataWarning : String := "data attribute exceeds 500 characters; truncating"

/-- Modelled from the spec: a malformed redirect URL is dropped
(resolved to `none`) with a logged warning; a well-formed absolute URL is
preserved unchanged. -/
def resolveRedirect (r : Option String) : Option String × List String :=
  match r with
  | none => (none, [])
  | some u => if isAbsoluteURL u then (some u, []) else (none, [redirectWarning])

/-- Modelled from the spec: opaque data longer than 500 characters is
truncated to its first 500 characters with a logged warning; shorter
data is preserved unchanged. -/
def resolveData (d : Option String) : Option String × List String :=
  match d with
  | none => (none, [])
  | some s =>
    if 500 < s.length then (some (String.mk (s.data.take 500)), [dataWarning])
    else (some s, [])

/-- Modelled from the spec: `Button.getOptionsFromElement`.  A missing
embed token, a missing amount, both amounts at once, or an amount that
does not parse as a numeric value are fatal errors; redirect-URL and
data problems are non-fatal (dropped or truncated with a warning). -/
def getOptionsFromElement (e : Element) : Except String ResolvedOptions :=
  match e.embedToken with
  | none => .error "Missing embed-token attribute"
  | some tok =>
    match e.btc, e.usd with
    | some _, some _ => .error "Cannot use both btc and usd attributes"
    | none, none => .error "Missing btc or usd attribute"
    | some b, none =>
      if isNumericString b then
        let rw := resolveRedirect e.redirectUrl
        let dw := resolveData e.data
        .ok { embedToken := tok, btc := some b, usd := none,
              redirectURL := rw.1, ref := e.ref, data := dw.1,
              warnings := rw.2 ++ dw.2 }
      else .error "Invalid btc attribute"
    | none, some u =>
      if isNumericString u then
        let rw := resolveRedirect e.redirectUrl
        let dw := resolveData e.data
        .ok { embedToken := tok, btc := none, usd := some u,
              redirectURL := rw.1, ref := e.ref, data := dw.1,
              warnings := rw.2 ++ dw.2 }
      else .error "Invalid usd attribute"

/-- `true` on a successful resolution. -/
def exceptOk {ε α : Type} : Except ε α → Bool
  | .ok _ => true
  | .error _ => false

/-- The data payload of a resolution result (`none` on failure). -/
def resolvedData : Except String ResolvedOptions → Option String
  | .ok o => o.data
  | .error _ => none

/-- The redirect URL of a resolution result (`none` on failure). -/
def resolvedRedirect : Except String ResolvedOptions → Option String
  | .ok o => o.redirectURL
  | .error _ => none

/-- The warnings logged by a resolution (empty on failure, since fatal
errors throw before any warning matters). -/
def resolvedWarnings : Except String ResolvedOptions → List String
  | .ok o => o.warnings
  | .error _ => []

/-- Modelled from the spec: the transaction-status snapshot returned by
the backend: at least an acceptance flag, and optionally amount,
transaction id, status string and redirect URL. -/
structure Transaction where
  isAccepted : Bool
  amount : Option String
  txid : Option String
  status : Option String
  redirectURL : Option String
deriving Repr, DecidableEq

/-- Modelled from the spec: the in-memory state of one `Button`
instance: fixed configuration, the latest transaction snapshot, the
overlay/polling flags and the log of caught polling errors. -/
structure Button where
  embedToken : String
  btc : Option String
  usd : Option String
  redirectURL : Option String
  ref : String
  data : Option String
  url : Option String
  isAccepted : Bool
  overlayOpen : Bool
  intervalActive : Bool
  transaction : Option Transaction
  errorLog : List String
deriving Repr, DecidableEq

/-- Hexadecimal digit character for a value below 16. -/
def hexChar (n : Nat) : Char :=
  if n < 10 then Char.ofNat (48 + n) else Char.ofNat (87 + n % 16)

/-- Modelled from the spec: `Button.shortUUID`, the generated reference
identifier — an 8-character random string, here a function of the
pseudo-random seed. -/
def shortUUID (seed : Nat) : String :=
  String.mk ((List.range 8).map (fun i => hexChar (seed / 16 ^ i % 16)))

/-- Modelled from the spec: the `Button` constructor.  Configuration is
fixed at construction; an omitted reference is generated via
`shortUUID`; everything else starts empty/closed. -/
def mkButton (embedToken : String) (opts : ButtonOptions) (seed : Nat) : Button :=
  { embedToken := embedToken
    btc := opts.btc
    usd := opts.usd
    redirectURL := opts.redirectURL
    ref := match opts.ref with
           | some r => r
           | none => shortUUID seed
    data := opts.data
    url := none
    isAccepted := false
    overlayOpen := false
    intervalActive := false
    transaction := none
    errorLog := [] }

/-- Left brace character as a string. -/
def lb : String := "\x7b"

/-- Right brace character as a string. -/
def rb : String := "\x7d"

/-- A JSON string literal (the payloads at stake contain no characters
needing escapes). -/
def jsonStr (s : String) : String := "\"" ++ s ++ "\""

/-- Render a list of key/value pairs as a JSON object. -/
def renderJSON (ps : List (String × String)) : String :=
  lb ++ String.intercalate "," (ps.map (fun p => jsonStr p.1 ++ ":" ++ jsonStr p.2)) ++ rb

/-- Modelled from the spec: the key/value pairs of the resolved
configuration serialized into the checkout URL, preferring the fiat
(usd) amount over the Bitcoin amount when both are set. -/
def configPairs (b : Button) : List (String × String) :=
  [("embedToken", b.embedToken)] ++
  (match b.usd with
   | some u => [("usd", u)]
   | none =>
     match b.btc with
     | some c => [("btc", c)]
     | none => []) ++
  [("ref", b.ref)] ++
  (match b.redirectURL with
   | some r => [("redirectURL", r)]
   | none => []) ++
  (match b.data with
   | some d => [("data", d)]
   | none => [])

/-- The base64 alphabet. -/
def base64Alphabet : String := "ABCDEFGHIJKLMNOPQRSTUVWXYZabcdefghijklmnopqrstuvwxyz0123456789+/"

/-- The base64 character for a 6-bit value. -/
def b64c (n : Nat) : Char := base64Alphabet.data.getD (n % 64) 'A'

/-- UTF-8 byte sequence of one character. -/
def utf8Encode (c : Char) : List Nat :=
  let n := c.toNat
  if n < 128 then [n]
  else if n < 2048 then [192 + n / 64, 128 + n % 64]
  else if n < 65536 then [224 + n / 4096, 128 + n / 64 % 64, 128 + n % 64]
  else [240 + n / 262144, 128 + n / 4096 % 64, 128 + n / 64 % 64, 128 + n % 64]

/-- UTF-8 bytes of a string. -/
def strBytes (s : String) : List Nat := s.data.flatMap utf8Encode

/-- Base64-encode a byte list, with `=` padding. -/
def base64Bytes : List Nat → String
  | [] => ""
  | [a] =>
    String.mk [b64c (a / 4), b64c (a % 4 * 16)] ++ "=="
  | [a, b] =>
    String.mk [b64c (a / 4), b64c (a % 4 * 16 + b / 16), b64c (b % 16 * 4)] ++ "="
  | a :: b :: c :: rest =>
    String.mk [b64c (a / 4), b64c (a % 4 * 16 + b / 16),
               b64c (b % 16 * 4 + c / 64), b64c (c % 64)] ++ base64Bytes rest

/-- Base64 encoding of a string (as `btoa` of the serialized payload). -/
def base64encode (s : String) : String := base64Bytes (strBytes s)

/-- Modelled from the spec: `Button.build`.  Regenerates the reference
when it is empty, then sets the checkout frame URL to the checkout base
followed by `/checkout/` followed by the base64 encoding of the JSON
serialization of the configuration. -/
def build (checkoutBase : String) (seed : Nat) (b : Button) : Button :=
  let b1 := if b.ref = "" then { b with ref := shortUUID seed } else b
  { b1 with url := some (checkoutBase ++ "/checkout/" ++ base64encode (renderJSON (configPairs b1))) }

/-- Modelled from the spec: the embedded checkout frame created when
the overlay opens, pointing at the constructed checkout URL.  The spec
says nothing about the frame's HTML attributes, so none are modelled. -/
structure Iframe where
  src : String
deriving Repr, DecidableEq

/-- Modelled from the spec: the overlay DOM subtree — the checkout
iframe plus the close control. -/
structure Overlay where
  iframe : Iframe
  hasCloseButton : Bool
deriving Repr, DecidableEq

/-- Modelled from the spec: `Button.buildOverlay`.  Opening constructs
the overlay with the checkout frame pointing at the checkout URL, marks
the overlay open and starts the polling interval. -/
def buildOverlay (b : Button) : Overlay × Button :=
  ({ iframe := { src := (b.url).getD "" }
     hasCloseButton := true },
   { b with overlayOpen := true, intervalActive := true })

/-- Modelled from the spec: the result of one status fetch — either a
transaction snapshot or a network failure. -/
inductive FetchResult where
  | success (t : Transaction)
  | failure (msg : String)
deriving Repr, DecidableEq

/-- Modelled from the spec: the custom events dispatched on the host
container. -/
inductive Event where
  | opened
  | closed
  | updated (t : Transaction)
  | accepted (t : Transaction)
deriving Repr, DecidableEq

/-- Modelled from the spec: processing of one poll response inside
`Button.update`.  A failure is caught and logged and changes nothing
else.  A success replaces the transaction snapshot wholesale and emits
the update event; if the snapshot indicates acceptance it also emits the
acceptance event, stops the interval, and navigates to the transaction
redirect URL if present, else the button redirect URL, else nowhere.
Returns the new state, the dispatched events and the navigation
target. -/
def pollTick (b : Button) (r : FetchResult) : Button × List Event × Option String :=
  match r with
  | .failure msg => ({ b with errorLog := b.errorLog ++ [msg] }, [], none)
  | .success t =>
    if t.isAccepted then
      ({ b with transaction := some t, isAccepted := true, intervalActive := false },
       [.updated t, .accepted t],
       match t.redirectURL with
       | some u => some u
       | none => b.redirectURL)
    else
      ({ b with transaction := some t, isAccepted := false }, [.updated t], none)

/-- Modelled from the spec: one 10-second interval tick.  A status
request is issued only while the interval is live and a reference id and
a live container exist; the number of requests issued by the tick (0 or
1) is returned alongside the new state. -/
def intervalTick (hasContainer : Bool) (b : Button) (r : FetchResult) : Button × Nat :=
  if b.intervalActive && !(b.ref == "") && hasContainer then
    ((pollTick b r).1, 1)
  else (b, 0)

/-- Modelled from the spec: a run of the polling loop over a list of
ticks (the head being the immediate request on open), counting the
status requests issued. -/
def pollTrace (hasContainer : Bool) (b : Button) : List FetchResult → Button × Nat
  | [] => (b, 0)
  | r :: rest =>
    let s := intervalTick hasContainer b r
    let f := pollTrace hasContainer s.1 rest
    (f.1, s.2 + f.2)

/-- `true` when a fetch result does not report an accepted
transaction. -/
def nonAccepting : FetchResult → Bool
  | .success t => !t.isAccepted
  | .failure _ => true

/-- Modelled from the spec: tearing the overlay down — the overlay
subtree is removed and the polling interval cancelled. -/
def closeOverlay (b : Button) : Button :=
  { b with overlayOpen := false, intervalActive := false }

/-- Modelled from the spec: `Button.exit`, a close attempt (close
control or click outside the frame).  Unless the transaction is already
accepted, a user confirmation is requested; a declined confirmation
leaves everything unchanged.  Returns the new state, whether a prompt
was shown and the dispatched events. -/
def buttonExit (b : Button) (userConfirms : Bool) : Button × Bool × List Event :=
  if b.isAccepted then (closeOverlay b, false, [.closed])
  else if userConfirms then (closeOverlay b, true, [.closed])
  else (b, true, [])

/-! Concrete sample inputs used to instantiate the theorems below. -/

/-- A declarative element carrying only a Bitcoin amount. -/
def elemBtc : Element :=
  ⟨some "t", some "0.001", none, none, none, none⟩

/-- A button configured with a Bitcoin amount and an explicit
reference. -/
def bEx : Button :=
  { embedToken := "tok", btc := some "0.001", usd := none, redirectURL := none
    ref := "order-1", data := none, url := none, isAccepted := false
    overlayOpen := false, intervalActive := false, transaction := none, errorLog := [] }

/-- A pending (not yet accepted) transaction snapshot. -/
def tPend : Transaction :=
  { isAccepted := false, amount := none, txid := none, status := none, redirectURL := none }

/-- An accepted transaction snapshot carrying its own redirect URL. -/
def tAccR : Transaction :=
  { isAccepted := true, amount := some "0.001", txid := some "tx1"
    status := some "accepted", redirectURL := some "https://tx.example/ok" }

/-- An opaque data payload of 501 characters. -/
def longData : String := String.mk (List.replicate 501 'a')

/-- Options without a reference. -/
def optsNoRef : ButtonOptions := ⟨some "0.001", none, none, none, none⟩

/-- Options with an explicit reference. -/
def optsRef : ButtonOptions := ⟨some "0.001", none, none, some "order-7", none⟩

/-! Helper lemmas about the polling loop. -/

/-- One poll tick never changes the reference id. -/
theorem pollTick_ref (b : Button) (r : FetchResult) : ((pollTick b r).1).ref = b.ref := by
  cases r with
  | failure m => rfl
  | success t => cases h : t.isAccepted <;> simp [pollTick, h]

/-- A non-accepting poll tick leaves the interval flag unchanged. -/
theorem pollTick_intervalActive (b : Button) (r : FetchResult)
    (h : nonAccepting r = true) :
    ((pollTick b r).1).intervalActive = b.intervalActive := by
  cases r with
  | failure m => rfl
  | success t =>
    have ht : t.isAccepted = false := by simpa [nonAccepting] using h
    simp [pollTick, ht]

/-- Once the interval is cancelled, no run of the loop issues any
request. -/
theorem pollTrace_inactive (hc : Bool) (rs : List FetchResult) (b : Button)
    (h : b.intervalActive = false) : (pollTrace hc b rs).2 = 0 := by
  induction rs generalizing b with
  | nil => rfl
  | cons r rest ih =>
    have h1 : intervalTick hc b r = (b, 0) := by simp [intervalTick, h]
    simp [pollTrace, h1, ih b h]

/-- While the interval is live, the reference nonempty, the container
present and every response non-accepting, each tick issues exactly one
request. -/
theorem pollTrace_active_count (rs : List FetchResult) (b : Button)
    (ha : b.intervalActive = true) (hr : (b.ref == "") = false)
    (hn : rs.all nonAccepting = true) :
    (pollTrace true b rs).2 = rs.length := by
  induction rs generalizing b with
  | nil => rfl
  | cons r rest ih =>
    have hn1 : nonAccepting r = true := by
      have := hn
      simp [List.all_cons] at this
      exact this.1
    have hn2 : rest.all nonAccepting = true := by
      have := hn
      simp only [List.all_cons, Bool.and_eq_true] at this
      exact this.2
    have h1 : intervalTick true b r = ((pollTick b r).1, 1) := by
      simp [intervalTick, ha, hr]
    have ih' := ih (pollTick b r).1
      (by rw [pollTick_intervalActive b r hn1]; exact ha)
      (by rw [pollTick_ref]; exact hr) hn2
    simp [pollTrace, h1, ih']
    omega

/-! The claims. -/

/-- C1: configuration resolution rejects a configuration providing both
a Bitcoin and a fiat amount, rejects one providing neither, and succeeds
when exactly one is present and parses as a numeric value: given an
embed token and numeric amounts where present, resolution fails iff the
two amount attributes are both present or both absent. -/
theorem amount_exclusivity (e : Element) (htok : e.embedToken.isSome = true)
    (hb : numericOpt e.btc = true) (hu : numericOpt e.usd = true) :
    (exceptOk (getOptionsFromElement e) = false) ↔ (e.btc.isSome = e.usd.isSome) := by
  rcases htok' : e.embedToken with _ | tok
  · simp [htok'] at htok
  · cases hbtc : e.btc <;> cases husd : e.usd <;>
      simp_all [getOptionsFromElement, exceptOk, numericOpt]

/-- Witness for C1 at a concrete element carrying only a Bitcoin
amount. -/
theorem amount_exclusivity_witness :
    (exceptOk (getOptionsFromElement elemBtc) = false) ↔
      (elemBtc.btc.isSome = elemBtc.usd.isSome) :=
  amount_exclusivity elemBtc (by decide) (by decide) (by decide)

/-- C3: for every accepted poll response, the navigation target is the
transaction snapshot's redirect URL if present, otherwise the button's
configured redirect URL, otherwise no navigation occurs. -/
theorem acceptance_navigation (b : Button) (t : Transaction) (h : t.isAccepted = true) :
    (∀ u, t.redirectURL = some u → (pollTick b (.success t)).2.2 = some u) ∧
    (t.redirectURL = none → ∀ v, b.redirectURL = some v →
       (pollTick b (.success t)).2.2 = some v) ∧
    (t.redirectURL = none → b.redirectURL = none →
       (pollTick b (.success t)).2.2 = none) := by
  refine ⟨?_, ?_, ?_⟩
  · intro u hu; simp [pollTick, h, hu]
  · intro h1 v hv; simp [pollTick, h, h1, hv]
  · intro h1 h2; simp [pollTick, h, h1, h2]

/-- Witness for C3: an accepted transaction carrying its own redirect
URL navigates there. -/
theorem acceptance_navigation_witness :
    (pollTick bEx (.success tAccR)).2.2 = some "https://tx.example/ok" :=
  (acceptance_navigation bEx tAccR rfl).1 "https://tx.example/ok" rfl

/-- C4: a close attempt while the transaction is not accepted prompts
the user and, if declined, leaves the button state (hence the overlay
subtree) unchanged; a close attempt with the accepted flag set proceeds
without any prompt. -/
theorem close_confirmation (b : Button) (c : Bool) :
    (b.isAccepted = false →
       (buttonExit b c).2.1 = true ∧
       (c = false → (buttonExit b c).1 = b ∧ (buttonExit b c).2.2 = [])) ∧
    (b.isAccepted = true →
       (buttonExit b c).2.1 = false ∧ (buttonExit b c).1 = closeOverlay b ∧
       (buttonExit b c).2.2 = [Event.closed]) := by
  constructor
  · intro h; cases c <;> simp [buttonExit, h]
  · intro h; simp [buttonExit, h]

/-- Witness for C4: declining the confirmation on an unaccepted button
leaves it untouched. -/
theorem close_confirmation_witness :
    (buttonExit bEx false).2.1 = true ∧ (buttonExit bEx false).1 = bEx ∧
    (buttonExit bEx false).2.2 = [] := by
  have h := (close_confirmation bEx false).1 rfl
  exact ⟨h.1, (h.2 rfl).1, (h.2 rfl).2⟩

/-- C9: a failed status request is caught and logged: the transaction
snapshot, the acceptance flag and the polling interval are unchanged, no
event is dispatched, no navigation occurs, and the tick returns
normally with the failure appended to the log. -/
theorem fetch_error_handling (b : Button) (msg : String) :
    (pollTick b (.failure msg)).1.transaction = b.transaction ∧
    (pollTick b (.failure msg)).1.intervalActive = b.intervalActive ∧
    (pollTick b (.failure msg)).1.isAccepted = b.isAccepted ∧
    (pollTick b (.failure msg)).1.errorLog = b.errorLog ++ [msg] ∧
    (pollTick b (.failure msg)).2.1 = [] ∧
    (pollTick b (.failure msg)).2.2 = none :=
  ⟨rfl, rfl, rfl, rfl, rfl, rfl⟩

/-- C2: from an open overlay with a reference and a live container, a
trace consisting of the immediate request plus `n` interval ticks with
non-accepting responses issues exactly `n + 1` requests; no request is
ever issued after the overlay closes or after an accepted response is
processed. -/
theorem polling_schedule (b : Button) (r0 : FetchResult) (rs : List FetchResult)
    (href : (b.ref == "") = false)
    (hnonacc : (r0 :: rs).all nonAccepting = true) :
    (pollTrace true ((buildOverlay b).2) (r0 :: rs)).2 = rs.length + 1 ∧
    (∀ rs2, (pollTrace true (closeOverlay b) rs2).2 = 0) ∧
    (∀ t rs2, t.isAccepted = true →
       (pollTrace true ((pollTick b (.success t)).1) rs2).2 = 0) := by
  refine ⟨?_, ?_, ?_⟩
  · have h := pollTrace_active_count (r0 :: rs) ((buildOverlay b).2) rfl href hnonacc
    simpa using h
  · intro rs2
    exact pollTrace_inactive true rs2 (closeOverlay b) rfl
  · intro t rs2 ht
    apply pollTrace_inactive
    simp [pollTick, ht]

/-- Witness for C2: two-tick trace from a freshly opened overlay. -/
theorem polling_schedule_witness :
    (pollTrace true ((buildOverlay bEx).2)
       [FetchResult.failure "e", FetchResult.success tPend]).2 =
      [FetchResult.success tPend].length + 1 ∧
    (∀ rs2, (pollTrace true (closeOverlay bEx) rs2).2 = 0) ∧
    (∀ t rs2, t.isAccepted = true →
       (pollTrace true ((pollTick bEx (.success t)).1) rs2).2 = 0) :=
  polling_schedule bEx (.failure "e") [.success tPend] (by decide) (by decide)

/-- C5: the checkout frame URL is the checkout base, then `/checkout/`,
then the base64 encoding of the JSON serialization of the resolved
configuration; when both amounts are set the serialized payload carries
the usd amount and no btc entry at all. -/
theorem checkout_url (base : String) (seed : Nat) (b : Button) (bv uv : String) :
    (build base seed b).url =
      some (base ++ "/checkout/" ++
        base64encode (renderJSON (configPairs
          (if b.ref = "" then { b with ref := shortUUID seed } else b)))) ∧
    ("usd", uv) ∈ configPairs { b with btc := some bv, usd := some uv } ∧
    (configPairs { b with btc := some bv, usd := some uv }).all
      (fun p => !(p.1 == "btc")) = true := by
  refine ⟨rfl, ?_, ?_⟩
  · cases hr : b.redirectURL <;> cases hd : b.data <;>
      simp [configPairs, hr, hd]
  · cases hr : b.redirectURL <;> cases hd : b.data <;>
      simp +decide [configPairs, hr, hd]

/-- C6: an opaque data payload longer than 500 characters resolves to
exactly its first 500 characters with the truncation warning logged; a
payload of at most 500 characters is preserved unchanged with no
warning. -/
theorem data_truncation (tok amt d : String) (hamt : isNumericString amt = true) :
    (500 < d.length →
      getOptionsFromElement ⟨some tok, some amt, none, none, none, some d⟩ =
        .ok { embedToken := tok, btc := some amt, usd := none, redirectURL := none,
              ref := none, data := some (String.mk (d.data.take 500)),
              warnings := [dataWarning] }) ∧
    (d.length ≤ 500 →
      getOptionsFromElement ⟨some tok, some amt, none, none, none, some d⟩ =
        .ok { embedToken := tok, btc := some amt, usd := none, redirectURL := none,
              ref := none, data := some d, warnings := [] }) := by
  constructor
  · intro h
    simp [getOptionsFromElement, hamt, resolveRedirect, resolveData, h]
  · intro h
    simp [getOptionsFromElement, hamt, resolveRedirect, resolveData, Nat.not_lt.mpr h]

set_option maxRecDepth 4096 in
/-- Witness for C6 at a 501-character payload. -/
theorem data_truncation_witness :
    500 < longData.length ∧
    getOptionsFromElement ⟨some "t", some "1", none, none, none, some longData⟩ =
      .ok { embedToken := "t", btc := some "1", usd := none, redirectURL := none,
            ref := none, data := some (String.mk (longData.data.take 500)),
            warnings := [dataWarning] } := by
  have hlen : 500 < longData.length := by decide
  exact ⟨hlen, (data_truncation "t" "1" longData (by decide)).1 hlen⟩

/-- The generated short identifier is never the empty string. -/
theorem shortUUID_ne_empty (seed : Nat) : shortUUID seed ≠ "" := by
  intro h
  have hd := congrArg String.data h
  simp [shortUUID] at hd

/-- C7: a construction without a reference yields a non-empty generated
identifier which is still non-empty after build; a provided reference is
preserved verbatim by the constructor. -/
theorem ref_generation (tok : String) (opts : ButtonOptions) (seed seed2 : Nat)
    (base : String) :
    (opts.ref = none →
       (mkButton tok opts seed).ref ≠ "" ∧
       (build base seed2 (mkButton tok opts seed)).ref ≠ "") ∧
    (∀ r, opts.ref = some r → (mkButton tok opts seed).ref = r) := by
  constructor
  · intro h
    have h1 : (mkButton tok opts seed).ref = shortUUID seed := by simp [mkButton, h]
    refine ⟨by rw [h1]; exact shortUUID_ne_empty seed, ?_⟩
    have h2 : (build base seed2 (mkButton tok opts seed)).ref
        = (mkButton tok opts seed).ref := by
      simp [build, h1, shortUUID_ne_empty seed]
    rw [h2, h1]
    exact shortUUID_ne_empty seed
  · intro r h
    simp [mkButton, h]

/-- Witness for C7: construction without and with a provided
reference. -/
theorem ref_generation_witness :
    ((mkButton "t" optsNoRef 3).ref ≠ "" ∧
     (build "b" 4 (mkButton "t" optsNoRef 3)).ref ≠ "") ∧
    (mkButton "t" optsRef 3).ref = "order-7" :=
  ⟨(ref_generation "t" optsNoRef 3 4 "b").1 rfl,
   (ref_generation "t" optsRef 3 4 "b").2 "order-7" rfl⟩

/-- C8: a redirect URL that is not a well-formed absolute URL (the empty
string included) resolves to no redirect with a warning logged while the
rest of resolution still succeeds; a well-formed absolute URL is
preserved unchanged. -/
theorem redirect_validation (tok amt u : String) (hamt : isNumericString amt = true) :
    isAbsoluteURL "" = false ∧
    (isAbsoluteURL u = false →
      exceptOk (getOptionsFromElement ⟨some tok, some amt, none, some u, none, none⟩)
          = true ∧
      resolvedRedirect
          (getOptionsFromElement ⟨some tok, some amt, none, some u, none, none⟩)
          = none ∧
      redirectWarning ∈ resolvedWarnings
          (getOptionsFromElement ⟨some tok, some amt, none, some u, none, none⟩)) ∧
    (isAbsoluteURL u = true →
      resolvedRedirect
          (getOptionsFromElement ⟨some tok, some amt, none, some u, none, none⟩)
          = some u) := by
  refine ⟨by decide, ?_, ?_⟩
  · intro h
    simp [getOptionsFromElement, hamt, resolveRedirect, resolveData, h,
          exceptOk, resolvedRedirect, resolvedWarnings, redirectWarning]
  · intro h
    simp [getOptionsFromElement, hamt, resolveRedirect, resolveData, h,
          resolvedRedirect]

/-- Witness for C8 at a malformed redirect URL. -/
theorem redirect_validation_witness :
    exceptOk (getOptionsFromElement
        ⟨some "t", some "1", none, some "invalid", none, none⟩) = true ∧
    resolvedRedirect (getOptionsFromElement
        ⟨some "t", some "1", none, some "invalid", none, none⟩) = none ∧
    redirectWarning ∈ resolvedWarnings (getOptionsFromElement
        ⟨some "t", some "1", none, some "invalid", none, none⟩) :=
  (redirect_validation "t" "1" "invalid" (by decide)).2.1 (by decide)

end Posfra
